import Mathlib

/-!
Shallow embedding of `distance_sensor_led_control.py`: a Raspberry Pi
program that repeatedly measures a distance with an ultrasonic sensor,
classifies it into one of six proximity tiers, and drives three RGB LEDs
with a tier-specific color pattern.

GPIO is modeled as an explicit state (pin level and pin direction maps);
each Python statement that touches GPIO becomes a state transformer.
Timing-dependent code (`calculate_distance`) is modeled over an explicit
trace of busy-poll observations.
-/

namespace DistSensor

/-- Python `frequency = 100` (PWM frequency constant from the source). -/
def frequency : Nat := 100

/-- Python `distance_sensor_constant = 17150` from the source. -/
def distance_sensor_constant : ℚ := 17150

/-- GPIO pin direction, as configured by `GPIO.setup`. -/
inductive Direction where
  | input
  | output
deriving DecidableEq

/-- The GPIO state: for each pin number, its electrical level
(`false` = LOW, `true` = HIGH) and its configured direction
(`none` = not yet configured). -/
structure Gpio where
  level : Nat → Bool
  dir : Nat → Option Direction

/-- Python `GPIO.output(pin, lvl)`: drive the pin to the given level. -/
def Gpio.output (g : Gpio) (pin : Nat) (lvl : Bool) : Gpio :=
  { g with level := fun p => if p = pin then lvl else g.level p }

/-- Python `GPIO.setup(pin, direction)`: configure the pin's direction.
No `initial=` argument is passed anywhere in the source, so the pin's
level is left unchanged. -/
def Gpio.setup (g : Gpio) (pin : Nat) (d : Direction) : Gpio :=
  { g with dir := fun p => if p = pin then some d else g.dir p }

/-- Python `GPIO.PWM(pin, frequency)`: constructs a PWM object. The source
discards the object and never calls `start` on it, so the pin state is
unchanged. -/
def Gpio.pwm (g : Gpio) (_pin : Nat) (_freq : Nat) : Gpio := g

/-- Python `class RGB_LED`: one tri-color LED, identified by the three pin
numbers wired to its red, green and blue anodes. -/
structure RGB_LED where
  red : Nat
  green : Nat
  blue : Nat
deriving DecidableEq

/-- The `led_pins` dictionary, in its Python insertion order
(`"red"`, `"green"`, `"blue"`). -/
def RGB_LED.led_pins (led : RGB_LED) : List (String × Nat) :=
  [("red", led.red), ("green", led.green), ("blue", led.blue)]

/-- Python `RGB_LED.configure_pins_for_output`: for each color pin, run
`GPIO.setup(pin, GPIO.OUT)` then `GPIO.PWM(pin, frequency)`. -/
def RGB_LED.configure_pins_for_output (led : RGB_LED) (g : Gpio) : Gpio :=
  led.led_pins.foldl (fun st cp => (st.setup cp.2 .output).pwm cp.2 frequency) g

/-- Python `RGB_LED.__init__(red, green, blue)`: record the three pins and call
`configure_pins_for_output`. Returns the constructed object and the GPIO
state after construction. -/
def RGB_LED.init (red green blue : Nat) (g : Gpio) : RGB_LED × Gpio :=
  let led : RGB_LED := ⟨red, green, blue⟩
  (led, led.configure_pins_for_output g)

/-- Python `RGB_LED.shut_off_colors`: set each color pin to LOW. -/
def RGB_LED.shut_off_colors (led : RGB_LED) (g : Gpio) : Gpio :=
  led.led_pins.foldl (fun st cp => st.output cp.2 false) g

/-- Python `RGB_LED.enable_all_colors`: set each color pin to HIGH. -/
def RGB_LED.enable_all_colors (led : RGB_LED) (g : Gpio) : Gpio :=
  led.led_pins.foldl (fun st cp => st.output cp.2 true) g

/-- Python `RGB_LED.set_color(desired_color)`: one pass over the three color
pins, setting the pin whose color key equals `desired_color` to HIGH and
every other pin to LOW. -/
def RGB_LED.set_color (led : RGB_LED) (desired_color : String) (g : Gpio) : Gpio :=
  led.led_pins.foldl (fun st cp => st.output cp.2 (cp.1 == desired_color)) g

/-- Python `controlled_leds["LED 1"]`, with its source pin numbers. -/
def LED1 : RGB_LED := ⟨7, 3, 5⟩

/-- Python `controlled_leds["LED 2"]`, with its source pin numbers. -/
def LED2 : RGB_LED := ⟨18, 16, 15⟩

/-- Python `controlled_leds["LED 3"]`, with its source pin numbers. -/
def LED3 : RGB_LED := ⟨12, 10, 8⟩

/-- The `controlled_leds` dictionary (insertion order preserved). -/
def controlled_leds : List (String × RGB_LED) :=
  [("LED 1", LED1), ("LED 2", LED2), ("LED 3", LED3)]

/-- Python `proximity_level_0`: all LEDs shut off. -/
def proximity_level_0 (g : Gpio) : Gpio :=
  LED3.shut_off_colors (LED2.shut_off_colors (LED1.shut_off_colors g))

/-- Python `proximity_level_1`: LED 1 green, LEDs 2 and 3 off. -/
def proximity_level_1 (g : Gpio) : Gpio :=
  LED3.shut_off_colors (LED2.shut_off_colors (LED1.set_color "green" g))

/-- Python `proximity_level_2`: LED 1 blue, LED 2 green, LED 3 off. -/
def proximity_level_2 (g : Gpio) : Gpio :=
  LED3.shut_off_colors (LED2.set_color "green" (LED1.set_color "blue" g))

/-- Python `proximity_level_3`: LED 1 red, LED 2 blue, LED 3 green. -/
def proximity_level_3 (g : Gpio) : Gpio :=
  LED3.set_color "green" (LED2.set_color "blue" (LED1.set_color "red" g))

/-- Python `proximity_level_4`: LED 1 red, LED 2 red, LED 3 blue. -/
def proximity_level_4 (g : Gpio) : Gpio :=
  LED3.set_color "blue" (LED2.set_color "red" (LED1.set_color "red" g))

/-- Python `proximity_level_5`: all LEDs red. -/
def proximity_level_5 (g : Gpio) : Gpio :=
  LED3.set_color "red" (LED2.set_color "red" (LED1.set_color "red" g))

/-- The `proximity_levels` dictionary mapping level keys to the tier
actions, in source order. -/
def proximity_levels : List (String × (Gpio → Gpio)) :=
  [("level 0", proximity_level_0), ("level 1", proximity_level_1),
   ("level 2", proximity_level_2), ("level 3", proximity_level_3),
   ("level 4", proximity_level_4), ("level 5", proximity_level_5)]

/-- Python `PIN_TRIGGER = 13`. -/
def PIN_TRIGGER : Nat := 13

/-- Python `PIN_ECHO = 11`. -/
def PIN_ECHO : Nat := 11

/-- Python `prepare_distance_sensor(pin_trigger, pin_echo)`: trigger pin as
output, echo pin as input, trigger driven LOW. -/
def prepare_distance_sensor (pin_trigger pin_echo : Nat) (g : Gpio) : Gpio :=
  ((g.setup pin_trigger .output).setup pin_echo .input).output pin_trigger false

/-- One busy-poll iteration of `calculate_distance`: the level returned
by the `GPIO.input(pin_echo)` call (`false` = 0/LOW, `true` = 1/HIGH)
paired with the value `time.time()` would return inside that iteration's
loop body. -/
structure Poll where
  level : Bool
  time : ℚ
deriving DecidableEq

/-- Externally visible hardware actions of `calculate_distance`, in
program order. -/
inductive Event where
  | outputHigh (pin : Nat)
  | sleep (seconds : ℚ)
  | outputLow (pin : Nat)
  | inputRead (pin : Nat) (lvl : Bool)
deriving DecidableEq

/-- Outcome of one `calculate_distance` call. `diverges` models the
busy-poll loop never exiting within the supplied observation trace (the
Python code blocks forever); `unboundLocal` models Python's
`UnboundLocalError` when `pulse_start_time`/`pulse_end_time` was never
assigned because its loop ran zero iterations. -/
inductive MeasureResult where
  | value (distance : ℚ)
  | unboundLocal
  | diverges
deriving DecidableEq

/-- Python `while GPIO.input(pin_echo) == cont: t = time.time()`, run against an
explicit trace of polls. Returns the `inputRead` events performed, the
last timestamp assigned by the loop body (`none` when the body never
ran), and `some rest` with the unconsumed trace on loop exit, or `none`
when the trace is exhausted with the loop still spinning. -/
def busyPoll (pin_echo : Nat) (cont : Bool) :
    List Poll → Option ℚ → List Event × Option ℚ × Option (List Poll)
  | [], acc => ([], acc, none)
  | p :: rest, acc =>
    if p.level = cont then
      let out := busyPoll pin_echo cont rest (some p.time)
      (Event.inputRead pin_echo p.level :: out.1, out.2)
    else
      ([Event.inputRead pin_echo p.level], acc, some rest)

/-- Round a rational to the nearest integer, ties to the even integer
(Python's `round` semantics). -/
def roundHalfEven (x : ℚ) : ℤ :=
  if x - ⌊x⌋ < 1 / 2 then ⌊x⌋
  else if 1 / 2 < x - ⌊x⌋ then ⌊x⌋ + 1
  else if ⌊x⌋ % 2 = 0 then ⌊x⌋ else ⌊x⌋ + 1

/-- Python's `round(x, 2)`: round to two decimal places, ties to even. -/
def pyRound2 (x : ℚ) : ℚ :=
  (roundHalfEven (x * 100) : ℚ) / 100

/-- Python `calculate_distance(pin_trigger, pin_echo)`: pulse the trigger HIGH,
sleep `0.00001` s, pulse it LOW, busy-poll the echo line through the two
`while` loops, then return
`round((pulse_end_time - pulse_start_time) * distance_sensor_constant, 2)`.
The result is paired with the trace of hardware actions performed. -/
def calculate_distance (pin_trigger pin_echo : Nat) (polls : List Poll) :
    List Event × MeasureResult :=
  let pre : List Event :=
    [Event.outputHigh pin_trigger, Event.sleep (1 / 100000), Event.outputLow pin_trigger]
  match busyPoll pin_echo false polls none with
  | (evs1, _, none) => (pre ++ evs1, .diverges)
  | (evs1, pulse_start_time, some rest1) =>
    match busyPoll pin_echo true rest1 none with
    | (evs2, _, none) => (pre ++ evs1 ++ evs2, .diverges)
    | (evs2, pulse_end_time, some _) =>
      match pulse_end_time, pulse_start_time with
      | some e, some s =>
        (pre ++ evs1 ++ evs2,
         .value (pyRound2 ((e - s) * distance_sensor_constant)))
      | _, _ => (pre ++ evs1 ++ evs2, .unboundLocal)

/-- The `if/elif` classification chain of `__main__`, read as a function
from the measured distance to the selected tier index. -/
def classify (d : ℚ) : Nat :=
  if 100 < d then 0
  else if 80 < d ∧ d ≤ 100 then 1
  else if 60 < d ∧ d ≤ 80 then 2
  else if 40 < d ∧ d ≤ 60 then 3
  else if 20 < d ∧ d ≤ 40 then 4
  else 5

/-- One iteration of the `while True` loop, given the distance measured
in that iteration: the `if/elif` chain applies the matching proximity
level to the GPIO state. -/
def loopBody (calculated_distance : ℚ) (g : Gpio) : Gpio :=
  if 100 < calculated_distance then proximity_level_0 g
  else if 80 < calculated_distance ∧ calculated_distance ≤ 100 then proximity_level_1 g
  else if 60 < calculated_distance ∧ calculated_distance ≤ 80 then proximity_level_2 g
  else if 40 < calculated_distance ∧ calculated_distance ≤ 60 then proximity_level_3 g
  else if 20 < calculated_distance ∧ calculated_distance ≤ 40 then proximity_level_4 g
  else proximity_level_5 g

/-- Module import: the three `RGB_LED(...)` constructions of
`controlled_leds`, in source order. -/
def configure_all_leds (g : Gpio) : Gpio :=
  LED3.configure_pins_for_output
    (LED2.configure_pins_for_output (LED1.configure_pins_for_output g))

/-- A whole `__main__` run where the loop executes once per measured
distance in `distances` and is then cancelled (KeyboardInterrupt) or
otherwise exits; the `finally` block applies `proximity_levels["level 0"]`
before the process ends. -/
def mainRun (distances : List ℚ) (g : Gpio) : Gpio :=
  let g1 := prepare_distance_sensor PIN_TRIGGER PIN_ECHO (configure_all_leds g)
  let g2 := distances.foldl (fun st d => loopBody d st) g1
  proximity_level_0 g2

/-- The observable (red, green, blue) line levels of one LED. -/
def ledTriple (g : Gpio) (led : RGB_LED) : Bool × Bool × Bool :=
  (g.level led.red, g.level led.green, g.level led.blue)

/-- At most one line of the triple is HIGH. -/
def atMostOneActive (t : Bool × Bool × Bool) : Prop :=
  (t.1 && t.2.1) = false ∧ (t.1 && t.2.2) = false ∧ (t.2.1 && t.2.2) = false

/-- All nine indicator color lines read LOW. -/
def all_indicators_off (g : Gpio) : Prop :=
  ledTriple g LED1 = (false, false, false) ∧
  ledTriple g LED2 = (false, false, false) ∧
  ledTriple g LED3 = (false, false, false)

/-- The tier action `f` drives the three indicators to exactly the given
(red, green, blue) triples, from any starting state, with at most one
color line HIGH per indicator afterwards. -/
def tierPatternOk (f : Gpio → Gpio) (t1 t2 t3 : Bool × Bool × Bool) : Prop :=
  ∀ g : Gpio,
    ledTriple (f g) LED1 = t1 ∧ ledTriple (f g) LED2 = t2 ∧ ledTriple (f g) LED3 = t3 ∧
    atMostOneActive (ledTriple (f g) LED1) ∧ atMostOneActive (ledTriple (f g) LED2) ∧
    atMostOneActive (ledTriple (f g) LED3)

/-! ## Helper lemmas -/

/-- Case analysis on the classification chain: every distance falls in
exactly one branch, with the tier the chain selects there. -/
theorem classify_cases (d : ℚ) :
    (100 < d ∧ classify d = 0) ∨
    (80 < d ∧ d ≤ 100 ∧ classify d = 1) ∨
    (60 < d ∧ d ≤ 80 ∧ classify d = 2) ∨
    (40 < d ∧ d ≤ 60 ∧ classify d = 3) ∨
    (20 < d ∧ d ≤ 40 ∧ classify d = 4) ∨
    (d ≤ 20 ∧ classify d = 5) := by
  unfold classify
  split_ifs with h1 h2 h3 h4 h5
  · exact Or.inl ⟨h1, rfl⟩
  · exact Or.inr (Or.inl ⟨h2.1, h2.2, rfl⟩)
  · exact Or.inr (Or.inr (Or.inl ⟨h3.1, h3.2, rfl⟩))
  · exact Or.inr (Or.inr (Or.inr (Or.inl ⟨h4.1, h4.2, rfl⟩)))
  · exact Or.inr (Or.inr (Or.inr (Or.inr (Or.inl ⟨h5.1, h5.2, rfl⟩))))
  · push_neg at h1
    have hd80 : d ≤ 80 := by
      by_contra hc; push_neg at hc; exact h2 ⟨hc, h1⟩
    have hd60 : d ≤ 60 := by
      by_contra hc; push_neg at hc; exact h3 ⟨hc, hd80⟩
    have hd40 : d ≤ 40 := by
      by_contra hc; push_neg at hc; exact h4 ⟨hc, hd60⟩
    have hd20 : d ≤ 20 := by
      by_contra hc; push_neg at hc; exact h5 ⟨hc, hd40⟩
    exact Or.inr (Or.inr (Or.inr (Or.inr (Or.inr ⟨hd20, rfl⟩))))

/-- Every event a busy-poll loop performs is an `inputRead` of the echo
pin. -/
theorem busyPoll_events (pin_echo : Nat) (cont : Bool) (polls : List Poll) :
    ∀ (acc : Option ℚ) (ev : Event),
      ev ∈ (busyPoll pin_echo cont polls acc).1 →
      ∃ lvl, ev = Event.inputRead pin_echo lvl := by
  induction polls with
  | nil => intro acc ev h; simp [busyPoll] at h
  | cons p rest ih =>
    intro acc ev h
    by_cases hc : p.level = cont
    · simp only [busyPoll, if_pos hc] at h
      rcases List.mem_cons.mp h with h' | h'
      · exact ⟨p.level, h'⟩
      · exact ih (some p.time) ev h'
    · simp only [busyPoll, if_neg hc] at h
      rcases List.mem_cons.mp h with h' | h'
      · exact ⟨p.level, h'⟩
      · simp at h'

/-- A busy-poll loop exits (rather than exhausting the trace) as soon as
some poll in the trace reads the level that stops it. -/
theorem busyPoll_exits (pin_echo : Nat) (cont : Bool) (polls : List Poll) :
    ∀ acc : Option ℚ, (∃ q ∈ polls, q.level ≠ cont) →
      ∃ evs t rest, busyPoll pin_echo cont polls acc = (evs, t, some rest) := by
  induction polls with
  | nil => intro acc h; simp at h
  | cons p rest ih =>
    intro acc h
    by_cases hc : p.level = cont
    · have hrest : ∃ q ∈ rest, q.level ≠ cont := by
        rcases h with ⟨q, hq, hne⟩
        rcases List.mem_cons.mp hq with h' | h'
        · subst h'; exact absurd hc hne
        · exact ⟨q, h', hne⟩
      obtain ⟨evs, t, r, hr⟩ := ih (some p.time) hrest
      exact ⟨Event.inputRead pin_echo p.level :: evs, t, r,
        by simp [busyPoll, if_pos hc, hr]⟩
    · exact ⟨[Event.inputRead pin_echo p.level], acc, rest, by simp [busyPoll, if_neg hc]⟩

/-! ## Claim theorems -/

/-- C1: classification is a total function into the six tiers; the six
intervals `(100, ∞)`, `(80, 100]`, `(60, 80]`, `(40, 60]`, `(20, 40]`,
`(-∞, 20]` partition the domain with no gap and no overlap (each tier
value is taken exactly on its interval), and each boundary value 20, 40,
60, 80, 100 belongs to the lower-numbered adjacent tier. -/
theorem classify_total_partition (d : ℚ) :
    (classify 100 = 1 ∧ classify 80 = 2 ∧ classify 60 = 3 ∧
     classify 40 = 4 ∧ classify 20 = 5) ∧
    classify d ≤ 5 ∧
    (classify d = 0 ↔ 100 < d) ∧
    (classify d = 1 ↔ 80 < d ∧ d ≤ 100) ∧
    (classify d = 2 ↔ 60 < d ∧ d ≤ 80) ∧
    (classify d = 3 ↔ 40 < d ∧ d ≤ 60) ∧
    (classify d = 4 ↔ 20 < d ∧ d ≤ 40) ∧
    (classify d = 5 ↔ d ≤ 20) := by
  rcases classify_cases d with ⟨ha, hc⟩ | ⟨ha, hb, hc⟩ | ⟨ha, hb, hc⟩ |
    ⟨ha, hb, hc⟩ | ⟨ha, hb, hc⟩ | ⟨ha, hc⟩ <;>
  rw [hc] <;>
  refine ⟨by norm_num [classify], by norm_num, ?_, ?_, ?_, ?_, ?_, ?_⟩ <;>
  simp <;> (try constructor) <;> (try intro h') <;> linarith

/-- C7: the classification is antitone: if `d1 ≤ d2` then the tier index
of `d2` is at most the tier index of `d1`. -/
theorem classify_monotone_nonincreasing (d1 d2 : ℚ) (h : d1 ≤ d2) :
    classify d2 ≤ classify d1 := by
  rcases classify_cases d1 with ⟨ha, hc⟩ | ⟨ha, hb, hc⟩ | ⟨ha, hb, hc⟩ |
    ⟨ha, hb, hc⟩ | ⟨ha, hb, hc⟩ | ⟨ha, hc⟩ <;>
  rcases classify_cases d2 with ⟨ga, gc⟩ | ⟨ga, gb, gc⟩ | ⟨ga, gb, gc⟩ |
    ⟨ga, gb, gc⟩ | ⟨ga, gb, gc⟩ | ⟨ga, gc⟩ <;>
  rw [hc, gc] <;> first | (exfalso; linarith) | norm_num

/-- C7 witness: at `d1 = 30 ≤ d2 = 150`, the tier of 150 is at most the
tier of 30. -/
theorem classify_monotone_nonincreasing_witness :
    (30 : ℚ) ≤ 150 ∧ classify 150 ≤ classify 30 :=
  ⟨by norm_num, classify_monotone_nonincreasing 30 150 (by norm_num)⟩

/-- C2: each of the six proximity levels sets the three indicators to
exactly the tier-to-pattern table — tier 0: off/off/off; tier 1:
green/off/off; tier 2: blue/green/off; tier 3: red/blue/green; tier 4:
red/red/blue; tier 5: red/red/red — and afterwards at most one color
line per indicator is HIGH. Triples are (red, green, blue) line levels. -/
theorem proximity_tier_patterns :
    tierPatternOk proximity_level_0 (false, false, false) (false, false, false) (false, false, false) ∧
    tierPatternOk proximity_level_1 (false, true, false) (false, false, false) (false, false, false) ∧
    tierPatternOk proximity_level_2 (false, false, true) (false, true, false) (false, false, false) ∧
    tierPatternOk proximity_level_3 (true, false, false) (false, false, true) (false, true, false) ∧
    tierPatternOk proximity_level_4 (true, false, false) (true, false, false) (false, false, true) ∧
    tierPatternOk proximity_level_5 (true, false, false) (true, false, false) (true, false, false) :=
  ⟨fun _ => ⟨rfl, rfl, rfl, ⟨rfl, rfl, rfl⟩, ⟨rfl, rfl, rfl⟩, ⟨rfl, rfl, rfl⟩⟩,
   fun _ => ⟨rfl, rfl, rfl, ⟨rfl, rfl, rfl⟩, ⟨rfl, rfl, rfl⟩, ⟨rfl, rfl, rfl⟩⟩,
   fun _ => ⟨rfl, rfl, rfl, ⟨rfl, rfl, rfl⟩, ⟨rfl, rfl, rfl⟩, ⟨rfl, rfl, rfl⟩⟩,
   fun _ => ⟨rfl, rfl, rfl, ⟨rfl, rfl, rfl⟩, ⟨rfl, rfl, rfl⟩, ⟨rfl, rfl, rfl⟩⟩,
   fun _ => ⟨rfl, rfl, rfl, ⟨rfl, rfl, rfl⟩, ⟨rfl, rfl, rfl⟩, ⟨rfl, rfl, rfl⟩⟩,
   fun _ => ⟨rfl, rfl, rfl, ⟨rfl, rfl, rfl⟩, ⟨rfl, rfl, rfl⟩, ⟨rfl, rfl, rfl⟩⟩⟩

/-- C3: for an indicator with pairwise distinct color pins, `set_color c`
sets the line whose color key equals `c` to HIGH and every other color
line to LOW; when `c` matches none of "red"/"green"/"blue", all three
lines end LOW, with no error. -/
theorem set_color_spec (led : RGB_LED) (c : String) (g : Gpio)
    (hrg : led.red ≠ led.green) (hrb : led.red ≠ led.blue) (hgb : led.green ≠ led.blue) :
    (led.set_color c g).level led.red = ("red" == c) ∧
    (led.set_color c g).level led.green = ("green" == c) ∧
    (led.set_color c g).level led.blue = ("blue" == c) ∧
    (c ≠ "red" → c ≠ "green" → c ≠ "blue" →
      ledTriple (led.set_color c g) led = (false, false, false)) := by
  refine ⟨?_, ?_, ?_, ?_⟩
  · simp [RGB_LED.set_color, RGB_LED.led_pins, Gpio.output, hrb, hrg]
  · simp [RGB_LED.set_color, RGB_LED.led_pins, Gpio.output, hgb]
  · simp [RGB_LED.set_color, RGB_LED.led_pins, Gpio.output]
  · intro h1 h2 h3
    simp [ledTriple, RGB_LED.set_color, RGB_LED.led_pins, Gpio.output, hrb, hrg, hgb,
      beq_eq_false_iff_ne]
    exact ⟨Ne.symm h1, Ne.symm h2, Ne.symm h3⟩

/-- C3 witness: LED 1 (pins 7/3/5) with the non-matching color "white"
ends all-off. -/
theorem set_color_spec_witness :
    LED1.red ≠ LED1.green ∧ LED1.red ≠ LED1.blue ∧ LED1.green ≠ LED1.blue ∧
    ((LED1.set_color "white" ⟨fun _ => true, fun _ => none⟩).level LED1.red = ("red" == "white") ∧
     (LED1.set_color "white" ⟨fun _ => true, fun _ => none⟩).level LED1.green = ("green" == "white") ∧
     (LED1.set_color "white" ⟨fun _ => true, fun _ => none⟩).level LED1.blue = ("blue" == "white") ∧
     ("white" ≠ "red" → "white" ≠ "green" → "white" ≠ "blue" →
       ledTriple (LED1.set_color "white" ⟨fun _ => true, fun _ => none⟩) LED1 =
         (false, false, false))) :=
  ⟨by decide, by decide, by decide,
   set_color_spec LED1 "white" ⟨fun _ => true, fun _ => none⟩ (by decide) (by decide) (by decide)⟩

/-- C5: every run of `__main__` — any number of loop iterations, then
cancellation or any other exit — ends with the `finally` block applying
the tier-0 pattern, so the final state has all nine indicator lines LOW,
regardless of the tier active when the loop stopped. -/
theorem main_cleanup_all_off (distances : List ℚ) (g : Gpio) :
    all_indicators_off (mainRun distances g) :=
  ⟨rfl, rfl, rfl⟩

/-- C6 (refuting the claim): `RGB_LED.__init__` only runs `GPIO.setup`
and `GPIO.PWM` on its pins; it never writes a level, so construction
leaves every line level exactly as it was. In particular constructing
LED 1 (pins 7/3/5) in a state where line 7 reads HIGH leaves line 7
HIGH, not LOW. -/
theorem rgb_led_init_does_not_shut_off :
    (∀ (g : Gpio) (r gr b : Nat), ((RGB_LED.init r gr b g).2).level = g.level) ∧
    ((RGB_LED.init 7 3 5 ⟨fun _ => true, fun _ => none⟩).2).level 7 = true :=
  ⟨fun _ _ _ _ => rfl, rfl⟩

/-- C10: each proximity level writes only the nine LED color pins
(7, 3, 5, 18, 16, 15, 12, 10, 8): the level of every other pin — in
particular `PIN_TRIGGER = 13` and `PIN_ECHO = 11` — is unchanged, and no
pin's direction is touched. -/
theorem proximity_levels_frame (g : Gpio) (p : Nat)
    (hp : p ∉ [7, 3, 5, 18, 16, 15, 12, 10, 8]) :
    ((proximity_level_0 g).level p = g.level p ∧ (proximity_level_0 g).dir = g.dir) ∧
    ((proximity_level_1 g).level p = g.level p ∧ (proximity_level_1 g).dir = g.dir) ∧
    ((proximity_level_2 g).level p = g.level p ∧ (proximity_level_2 g).dir = g.dir) ∧
    ((proximity_level_3 g).level p = g.level p ∧ (proximity_level_3 g).dir = g.dir) ∧
    ((proximity_level_4 g).level p = g.level p ∧ (proximity_level_4 g).dir = g.dir) ∧
    ((proximity_level_5 g).level p = g.level p ∧ (proximity_level_5 g).dir = g.dir) := by
  simp only [List.mem_cons, List.not_mem_nil, or_false, not_or] at hp
  obtain ⟨h7, h3, h5, h18, h16, h15, h12, h10, h8⟩ := hp
  refine ⟨⟨?_, rfl⟩, ⟨?_, rfl⟩, ⟨?_, rfl⟩, ⟨?_, rfl⟩, ⟨?_, rfl⟩, ⟨?_, rfl⟩⟩ <;>
    simp [proximity_level_0, proximity_level_1, proximity_level_2, proximity_level_3,
      proximity_level_4, proximity_level_5, RGB_LED.set_color, RGB_LED.shut_off_colors,
      RGB_LED.led_pins, Gpio.output, LED1, LED2, LED3,
      h7, h3, h5, h18, h16, h15, h12, h10, h8]

/-- C10 witness: the trigger pin 13 is outside the LED pin set and its
level is untouched by every proximity level. -/
theorem proximity_levels_frame_witness :
    (13 : Nat) ∉ [7, 3, 5, 18, 16, 15, 12, 10, 8] ∧
    ((proximity_level_0 ⟨fun _ => true, fun _ => none⟩).level 13 =
        (⟨fun _ => true, fun _ => none⟩ : Gpio).level 13 ∧
      (proximity_level_0 ⟨fun _ => true, fun _ => none⟩).dir =
        (⟨fun _ => true, fun _ => none⟩ : Gpio).dir) ∧
    ((proximity_level_1 ⟨fun _ => true, fun _ => none⟩).level 13 =
        (⟨fun _ => true, fun _ => none⟩ : Gpio).level 13 ∧
      (proximity_level_1 ⟨fun _ => true, fun _ => none⟩).dir =
        (⟨fun _ => true, fun _ => none⟩ : Gpio).dir) ∧
    ((proximity_level_2 ⟨fun _ => true, fun _ => none⟩).level 13 =
        (⟨fun _ => true, fun _ => none⟩ : Gpio).level 13 ∧
      (proximity_level_2 ⟨fun _ => true, fun _ => none⟩).dir =
        (⟨fun _ => true, fun _ => none⟩ : Gpio).dir) ∧
    ((proximity_level_3 ⟨fun _ => true, fun _ => none⟩).level 13 =
        (⟨fun _ => true, fun _ => none⟩ : Gpio).level 13 ∧
      (proximity_level_3 ⟨fun _ => true, fun _ => none⟩).dir =
        (⟨fun _ => true, fun _ => none⟩ : Gpio).dir) ∧
    ((proximity_level_4 ⟨fun _ => true, fun _ => none⟩).level 13 =
        (⟨fun _ => true, fun _ => none⟩ : Gpio).level 13 ∧
      (proximity_level_4 ⟨fun _ => true, fun _ => none⟩).dir =
        (⟨fun _ => true, fun _ => none⟩ : Gpio).dir) ∧
    ((proximity_level_5 ⟨fun _ => true, fun _ => none⟩).level 13 =
        (⟨fun _ => true, fun _ => none⟩ : Gpio).level 13 ∧
      (proximity_level_5 ⟨fun _ => true, fun _ => none⟩).dir =
        (⟨fun _ => true, fun _ => none⟩ : Gpio).dir) :=
  ⟨by decide, proximity_levels_frame ⟨fun _ => true, fun _ => none⟩ 13 (by decide)⟩

/-- C4: when both busy-poll loops assign their timestamp and exit
(recorded start `s`, recorded end `e`), the measurement returns exactly
`round((e - s) * 17150, 2)`. -/
theorem calculate_distance_formula (pt pe : Nat) (polls rest1 rest2 : List Poll)
    (evs1 evs2 : List Event) (s e : ℚ)
    (h1 : busyPoll pe false polls none = (evs1, some s, some rest1))
    (h2 : busyPoll pe true rest1 none = (evs2, some e, some rest2)) :
    (calculate_distance pt pe polls).2 =
      .value (pyRound2 ((e - s) * distance_sensor_constant)) := by
  unfold calculate_distance
  simp only [h1, h2]

/-- C4 witness: a concrete trace with recorded start time 10 s and end
time 11 s yields `round(1 * 17150, 2) = 17150`. -/
theorem calculate_distance_formula_witness :
    busyPoll 11 false [⟨false, 10⟩, ⟨true, 0⟩, ⟨true, 11⟩, ⟨false, 0⟩] none =
      ([Event.inputRead 11 false, Event.inputRead 11 true], some 10,
        some [⟨true, 11⟩, ⟨false, 0⟩]) ∧
    busyPoll 11 true [⟨true, 11⟩, ⟨false, 0⟩] none =
      ([Event.inputRead 11 true, Event.inputRead 11 false], some 11, some []) ∧
    (calculate_distance 13 11 [⟨false, 10⟩, ⟨true, 0⟩, ⟨true, 11⟩, ⟨false, 0⟩]).2 =
      .value (pyRound2 ((11 - 10) * distance_sensor_constant)) :=
  ⟨rfl, rfl,
   calculate_distance_formula 13 11
     [⟨false, 10⟩, ⟨true, 0⟩, ⟨true, 11⟩, ⟨false, 0⟩] [⟨true, 11⟩, ⟨false, 0⟩] []
     [Event.inputRead 11 false, Event.inputRead 11 true]
     [Event.inputRead 11 true, Event.inputRead 11 false] 10 11 rfl rfl⟩

/-- C8: every measurement's hardware trace starts with trigger HIGH, a
10-microsecond (0.00001 s) sleep, then trigger LOW, and everything after
those three events is a busy-poll read of the echo pin. -/
theorem trigger_sequence (pt pe : Nat) (polls : List Poll) :
    ∃ reads : List Event,
      (calculate_distance pt pe polls).1 =
        Event.outputHigh pt :: Event.sleep (1 / 100000) :: Event.outputLow pt :: reads ∧
      ∀ ev ∈ reads, ∃ lvl, ev = Event.inputRead pe lvl := by
  unfold calculate_distance
  rcases hb1 : busyPoll pe false polls none with ⟨evs1, t1, r1⟩
  have he1 : ∀ ev ∈ evs1, ∃ lvl, ev = Event.inputRead pe lvl := by
    intro ev hev
    exact busyPoll_events pe false polls none ev (by rw [hb1]; exact hev)
  cases r1 with
  | none =>
    refine ⟨evs1, by simp [hb1], he1⟩
  | some rest1 =>
    rcases hb2 : busyPoll pe true rest1 none with ⟨evs2, t2, r2⟩
    have he2 : ∀ ev ∈ evs2, ∃ lvl, ev = Event.inputRead pe lvl := by
      intro ev hev
      exact busyPoll_events pe true rest1 none ev (by rw [hb2]; exact hev)
    have hboth : ∀ ev ∈ evs1 ++ evs2, ∃ lvl, ev = Event.inputRead pe lvl := by
      intro ev hev
      rcases List.mem_append.mp hev with h' | h'
      · exact he1 ev h'
      · exact he2 ev h'
    cases r2 with
    | none => exact ⟨evs1 ++ evs2, by simp [hb1, hb2], hboth⟩
    | some rest2 =>
      cases t2 with
      | none => exact ⟨evs1 ++ evs2, by simp [hb1, hb2], hboth⟩
      | some e =>
        cases t1 with
        | none => exact ⟨evs1 ++ evs2, by simp [hb1, hb2], hboth⟩
        | some s => exact ⟨evs1 ++ evs2, by simp [hb1, hb2], hboth⟩

/-- C9: if the echo line already reads HIGH at the first poll, the first
busy-poll loop runs zero iterations and `pulse_start_time` is never
assigned, so the measurement can never return a distance value: it either
raises the unbound-local error at the duration computation (whenever the
second loop terminates, e.g. as soon as some later poll reads LOW) or
blocks in the second loop forever. -/
theorem echo_high_at_first_poll (pt pe : Nat) (p0 : Poll) (rest : List Poll)
    (h : p0.level = true) :
    (∀ d : ℚ, (calculate_distance pt pe (p0 :: rest)).2 ≠ .value d) ∧
    ((∃ q ∈ rest, q.level = false) →
      (calculate_distance pt pe (p0 :: rest)).2 = .unboundLocal) := by
  have hb : busyPoll pe false (p0 :: rest) none =
      ([Event.inputRead pe p0.level], none, some rest) := by
    simp [busyPoll, h]
  constructor
  · intro d
    unfold calculate_distance
    rcases hb2 : busyPoll pe true rest none with ⟨evs2, t2, r2⟩
    cases r2 with
    | none => simp [hb, hb2]
    | some rest2 => cases t2 <;> simp [hb, hb2]
  · intro hex
    have hex' : ∃ q ∈ rest, q.level ≠ true := by
      rcases hex with ⟨q, hq, hql⟩
      exact ⟨q, hq, by simp [hql]⟩
    obtain ⟨evs2, t2, rest2, hb2⟩ := busyPoll_exits pe true rest none hex'
    unfold calculate_distance
    cases t2 <;> simp [hb, hb2]

/-- C9 witness: with the echo line HIGH at the first poll and LOW at the
second, the measurement raises the unbound-local error and returns no
distance. -/
theorem echo_high_at_first_poll_witness :
    (⟨true, 5⟩ : Poll).level = true ∧
    ((∀ d : ℚ, (calculate_distance 13 11 [⟨true, 5⟩, ⟨false, 9⟩]).2 ≠ .value d) ∧
     ((∃ q ∈ [(⟨false, 9⟩ : Poll)], q.level = false) →
       (calculate_distance 13 11 [⟨true, 5⟩, ⟨false, 9⟩]).2 = .unboundLocal)) :=
  ⟨rfl, echo_high_at_first_poll 13 11 ⟨true, 5⟩ [⟨false, 9⟩] rfl⟩

end DistSensor
